import Mathlib

/-
Verification development for the static rendering orchestration of the
turbo repository.

Embedded source files:
  * crates/turbopack-node/src/render/render_static.rs
      (render_static, run_static_operation, static_error)
  * crates/turbopack-env/src/asset.rs
      (ProcessEnvAsset, ProcessEnvChunkItem)

External collaborators (the renderer pool, the message channel, the
stack-trace re-mapper, the fallback HTML template and the error page
renderer) are modelled as components of an explicit environment record:
the orchestrator code under verification only ever observes their
results, exactly as the Rust code observes the results of the awaited
calls.  Errors (anyhow::Error values) are modelled as `String`, their
pretty-printed rendering.
-/

namespace Turbo

/-! Character-level model of Rust `str::replace` with a single-character
pattern, as used at render_static.rs lines 171-176: every occurrence of
the character is replaced, left to right. -/

/-- Model of Rust `String::replace(c, r)` for a one-character pattern:
replaces every occurrence of `c` by `r`. -/
def replaceChar (c : Char) (r : List Char) : List Char → List Char
  | [] => []
  | x :: xs => if x = c then r ++ replaceChar c r xs else x :: replaceChar c r xs

/-- The escaping pipeline of static_error (render_static.rs lines 172-176):
replace `&` by `&amp;` first, then `>` by `&gt;`, then `<` by `&lt;`. -/
def escapeChars (s : List Char) : List Char :=
  replaceChar '<' ("&lt;".data) (replaceChar '>' ("&gt;".data) (replaceChar '&' ("&amp;".data) s))

/-- String-level wrapper of the escaping pipeline. -/
def escapeHtml (s : String) : String :=
  String.mk (escapeChars s.data)

/-- Single-pass per-character escaping map: the order-independent
specification the three sequential replacements are compared against. -/
def escChar (c : Char) : List Char :=
  if c = '&' then "&amp;".data
  else if c = '>' then "&gt;".data
  else if c = '<' then "&lt;".data
  else [c]

/-- Single-pass escaping of a whole character list. -/
def escapeSpec : List Char → List Char
  | [] => []
  | x :: xs => escChar x ++ escapeSpec xs

/-- Property of a character list: every occurrence of `&` begins one of
the entities `&amp;`, `&gt;`, `&lt;`. -/
def AmpsHeadEntities (l : List Char) : Prop :=
  ∀ u v, l = u ++ '&' :: v →
    (∃ t, v = 'a' :: 'm' :: 'p' :: ';' :: t) ∨
    (∃ t, v = 'g' :: 't' :: ';' :: t) ∨
    (∃ t, v = 'l' :: 't' :: ';' :: t)

/-! Data model of the orchestrator (render_static.rs). -/

/-- RenderStaticIncomingMessage: the three messages the worker may send. -/
inductive IncomingMessage where
  | rewrite (path : String)
  | response (status_code : Nat) (headers : List (String × String)) (body : String)
  | error (message : String)
deriving DecidableEq, Repr

/-- StaticResult: the orchestrator's result type.  `content` carries the
serialized asset content, the HTTP status code, and the header list. -/
inductive StaticResult where
  | content (content : String) (status_code : Nat) (headers : List (String × String))
  | rewrite (path : String)
deriving DecidableEq, Repr

/-- Result of NodeJsOperation::wait_or_kill.  Modelled from the spec:
the pool's wait-or-kill operation (crate code outside the embedded
files) always completes and yields a printable exit indicator plus an
optional numeric exit code. -/
structure OperationStatus where
  display : String
  code : Option Int
deriving DecidableEq, Repr

/-- RenderingIssue as emitted by static_error: the page identity, the raw
(non-escaped) error message, and the optional numeric exit code. -/
structure RenderingIssue where
  context : String
  message : String
  status : Option Int
deriving DecidableEq, Repr

/-- Environment of one rendering attempt: the observable results of every
external collaborator the orchestrator awaits.
  * `poolOperation` — result of `pool.operation()` (worker acquisition);
  * `sendHeaders` — result of `operation.send(Headers)`;
  * `recv` — result of `operation.recv()`;
  * `traceStack` — the stack-trace re-mapping collaborator;
  * `waitOrKill` — the status `operation.wait_or_kill()` resolves to
    (modelled from the spec as always completing, see `OperationStatus`);
  * `errorHtmlBody` — the error page renderer
    `error_html_body(status, title, message)`, which may fail
    (the template-rendering fault);
  * `withBodyContent` — serialization of `fallback_page.with_body(body)`. -/
structure RenderEnv where
  poolOperation : Except String Unit
  sendHeaders : Except String Unit
  recv : Except String IncomingMessage
  traceStack : String → Except String String
  waitOrKill : OperationStatus
  errorHtmlBody : Nat → String → String → Except String String
  withBodyContent : String → String

/-- Model of anyhow's `.context(c)`: wraps the message of a failure. -/
def addContext (c : String) : Except String α → Except String α
  | .ok a => .ok a
  | .error m => .error (c ++ ": " ++ m)

/-- The inert placeholder data block of static_error
(render_static.rs lines 182-184). -/
def nextDataScript : String :=
  "<script id=\"__NEXT_DATA__\" type=\"application/json\">\x7b \"props\": \x7b\x7d \x7d</script>"

/-- The message handed to the error page renderer: the escaped error
text, with the process-status line appended exactly when a worker handle
was present (render_static.rs lines 166-180). -/
def diagnosticMessage (env : RenderEnv) (error : String) (operation : Option Unit) : String :=
  match operation.map fun _ => env.waitOrKill with
  | some st => escapeHtml error ++ ("\n\nStatus: " ++ st.display)
  | none => escapeHtml error

/-- static_error (render_static.rs lines 160-203): resolves the worker's
final status when a handle is present, escapes the error, optionally
appends the status line, renders the error page body after the
placeholder data block, and produces the spliced fallback content
together with the emitted RenderingIssue.  The only failure is the error
page renderer itself failing. -/
def static_error (env : RenderEnv) (path error : String) (operation : Option Unit) :
    Except String (String × RenderingIssue) :=
  let status := operation.map fun _ => env.waitOrKill
  match env.errorHtmlBody 500 "Error rendering page" (diagnosticMessage env error operation) with
  | .error e => .error e
  | .ok errBody =>
      .ok (env.withBodyContent (nextDataScript ++ errBody),
        ⟨path, error, status.bind OperationStatus.code⟩)

/-- run_static_operation (render_static.rs lines 114-158): send the
Headers message, receive exactly one incoming message and classify it.
A worker-reported Error is re-mapped through `traceStack` and raised
as a failure (the `bail!`). -/
def run_static_operation (env : RenderEnv) : Except String StaticResult :=
  match addContext "sending headers to node.js process" env.sendHeaders with
  | .error e => .error e
  | .ok _ =>
    match addContext "receiving from node.js process" env.recv with
    | .error e => .error e
    | .ok (.rewrite path) => .ok (.rewrite path)
    | .ok (.response status_code headers body) => .ok (.content body status_code headers)
    | .ok (.error error) =>
      match env.traceStack error with
      | .error e => .error e
      | .ok traced => .error traced

/-- render_static (render_static.rs lines 54-112), from the point where
the renderer pool has been resolved (lines 67-82 construct the
intermediate asset and resolve the pool through external collaborators;
their results are part of `env`).  Returns the StaticResult together
with the list of RenderingIssues emitted during the attempt. -/
def render_static (env : RenderEnv) (path : String) :
    Except String (StaticResult × List RenderingIssue) :=
  match env.poolOperation with
  | .error err =>
    match static_error env path err none with
    | .error e => .error e
    | .ok (content, issue) => .ok (.content content 500 [], [issue])
  | .ok _ =>
    match run_static_operation env with
    | .ok result => .ok (result, [])
    | .error err =>
      match static_error env path err (some ()) with
      | .error e => .error e
      | .ok (content, issue) => .ok (.content content 500 [], [issue])

/-! Data model of the environment-injection asset (asset.rs). -/

/-- ProcessEnvAsset (asset.rs lines 27-34): the root path and the
resolved key/value environment mapping. -/
structure ProcessEnvAsset where
  root : String
  env : List (String × String)
deriving DecidableEq, Repr

/-- Asset::content for ProcessEnvAsset (asset.rs lines 51-54) is
`unimplemented!()`: invoking it aborts instead of yielding content. -/
def ProcessEnvAsset.content (_ : ProcessEnvAsset) : Except String String :=
  .error "not implemented"

/-- Asset::references for ProcessEnvAsset (asset.rs lines 56-59) is
`unimplemented!()`: invoking it aborts instead of yielding a list. -/
def ProcessEnvAsset.references (_ : ProcessEnvAsset) : Except String (List String) :=
  .error "not implemented"

/-- ChunkItem::references for ProcessEnvChunkItem (asset.rs lines
108-111): AssetReferencesVc::empty(). -/
def processEnvChunkItemReferences : List String := []

/-- The first line of the generated chunk-item code (asset.rs line 129):
re-spread the original process.env to preserve unspecified entries. -/
def processEnvHeader : String :=
  "const env = process.env = \x7b...process.env\x7d;\n\n"

/-- One generated assignment line (asset.rs line 137): the key goes
through StringifyJs, the value is embedded verbatim (it is assumed to be
ready for direct embedding). -/
def envAssignment (stringifyJs : String → String) (name val : String) : String :=
  "env[" ++ stringifyJs name ++ "] = " ++ val ++ ";\n"

/-- EcmascriptChunkItem::content for ProcessEnvChunkItem (asset.rs lines
122-145): the header followed by one assignment per key/value pair, in
mapping order.  `stringifyJs` abstracts the external StringifyJs
utility (a JS-literal-safe stringifier). -/
def processEnvChunkItemContent (stringifyJs : String → String)
    (env : List (String × String)) : String :=
  env.foldl (fun code p => code ++ envAssignment stringifyJs p.1 p.2) processEnvHeader

/-- Following the spec claim for comparison: both the key and the value
embedded via the JS-literal-safe stringifier. -/
def processEnvSpecContent (stringifyJs : String → String)
    (env : List (String × String)) : String :=
  env.foldl
    (fun code p => code ++ ("env[" ++ stringifyJs p.1 ++ "] = " ++ stringifyJs p.2 ++ ";\n"))
    processEnvHeader

/-- A concrete JS-literal-safe stringifier for strings without
characters needing escapes, matching StringifyJs on such inputs. -/
def stringifyJsSimple (s : String) : String := "\"" ++ s ++ "\""

/-- Concatenation of a list of strings. -/
def concatAll : List String → String
  | [] => ""
  | s :: rest => s ++ concatAll rest

/-! Lemmas about the escaping pipeline. -/

theorem replaceChar_append (c : Char) (r : List Char) (xs ys : List Char) :
    replaceChar c r (xs ++ ys) = replaceChar c r xs ++ replaceChar c r ys := by
  induction xs with
  | nil => rfl
  | cons x xs ih =>
    by_cases h : x = c <;> simp [replaceChar, h, ih]

theorem rc_gt_amp : replaceChar '>' ("&gt;".data) ("&amp;".data) = "&amp;".data := by decide

theorem rc_lt_amp : replaceChar '<' ("&lt;".data) ("&amp;".data) = "&amp;".data := by decide

theorem rc_lt_gt : replaceChar '<' ("&lt;".data) ("&gt;".data) = "&gt;".data := by decide

theorem escapeChars_cons (x : Char) (xs : List Char) :
    escapeChars (x :: xs) = escChar x ++ escapeChars xs := by
  unfold escapeChars
  by_cases h1 : x = '&'
  · subst h1
    rw [show replaceChar '&' ("&amp;".data) ('&' :: xs) =
        "&amp;".data ++ replaceChar '&' ("&amp;".data) xs from by simp [replaceChar]]
    rw [replaceChar_append, rc_gt_amp, replaceChar_append, rc_lt_amp]
    rfl
  by_cases h2 : x = '>'
  · subst h2
    rw [show replaceChar '&' ("&amp;".data) ('>' :: xs) =
        '>' :: replaceChar '&' ("&amp;".data) xs from by simp [replaceChar]]
    rw [show replaceChar '>' ("&gt;".data) ('>' :: replaceChar '&' ("&amp;".data) xs) =
        "&gt;".data ++ replaceChar '>' ("&gt;".data) (replaceChar '&' ("&amp;".data) xs) from by
      simp [replaceChar]]
    rw [replaceChar_append, rc_lt_gt]
    rfl
  by_cases h3 : x = '<'
  · subst h3
    rw [show replaceChar '&' ("&amp;".data) ('<' :: xs) =
        '<' :: replaceChar '&' ("&amp;".data) xs from by simp [replaceChar]]
    rw [show replaceChar '>' ("&gt;".data) ('<' :: replaceChar '&' ("&amp;".data) xs) =
        '<' :: replaceChar '>' ("&gt;".data) (replaceChar '&' ("&amp;".data) xs) from by
      simp [replaceChar]]
    rw [show replaceChar '<' ("&lt;".data)
        ('<' :: replaceChar '>' ("&gt;".data) (replaceChar '&' ("&amp;".data) xs)) =
        "&lt;".data ++ replaceChar '<' ("&lt;".data)
          (replaceChar '>' ("&gt;".data) (replaceChar '&' ("&amp;".data) xs)) from by
      simp [replaceChar]]
    rfl
  · rw [show replaceChar '&' ("&amp;".data) (x :: xs) =
        x :: replaceChar '&' ("&amp;".data) xs from by simp [replaceChar, h1]]
    rw [show replaceChar '>' ("&gt;".data) (x :: replaceChar '&' ("&amp;".data) xs) =
        x :: replaceChar '>' ("&gt;".data) (replaceChar '&' ("&amp;".data) xs) from by
      simp [replaceChar, h2]]
    rw [show replaceChar '<' ("&lt;".data)
        (x :: replaceChar '>' ("&gt;".data) (replaceChar '&' ("&amp;".data) xs)) =
        x :: replaceChar '<' ("&lt;".data)
          (replaceChar '>' ("&gt;".data) (replaceChar '&' ("&amp;".data) xs)) from by
      simp [replaceChar, h3]]
    simp [escChar, h1, h2, h3]

theorem escapeChars_eq_spec (s : List Char) : escapeChars s = escapeSpec s := by
  induction s with
  | nil => rfl
  | cons x xs ih => rw [escapeChars_cons, escapeSpec, ih]

theorem lt_not_in_escapeSpec (s : List Char) : '<' ∉ escapeSpec s := by
  induction s with
  | nil => simp [escapeSpec]
  | cons x xs ih =>
    rw [escapeSpec]
    intro hmem
    rcases List.mem_append.mp hmem with hx | hx
    · by_cases h1 : x = '&'
      · subst h1; exact absurd hx (by decide)
      by_cases h2 : x = '>'
      · subst h2; exact absurd hx (by decide)
      by_cases h3 : x = '<'
      · subst h3; exact absurd hx (by decide)
      · rw [show escChar x = [x] from by simp [escChar, h1, h2, h3],
          List.mem_singleton] at hx
        exact h3 hx.symm
    · exact ih hx

theorem gt_not_in_escapeSpec (s : List Char) : '>' ∉ escapeSpec s := by
  induction s with
  | nil => simp [escapeSpec]
  | cons x xs ih =>
    rw [escapeSpec]
    intro hmem
    rcases List.mem_append.mp hmem with hx | hx
    · by_cases h1 : x = '&'
      · subst h1; exact absurd hx (by decide)
      by_cases h2 : x = '>'
      · subst h2; exact absurd hx (by decide)
      by_cases h3 : x = '<'
      · subst h3; exact absurd hx (by decide)
      · rw [show escChar x = [x] from by simp [escChar, h1, h2, h3],
          List.mem_singleton] at hx
        exact h2 hx.symm
    · exact ih hx

/-- Peel one non-ampersand character off the left of an append
decomposition around an ampersand. -/
theorem cons_eq_append_amp {c : Char} {l u v : List Char}
    (h : c :: l = u ++ '&' :: v) (hc : c ≠ '&') :
    ∃ u2, u = c :: u2 ∧ l = u2 ++ '&' :: v := by
  cases u with
  | nil =>
    simp only [List.nil_append, List.cons.injEq] at h
    exact absurd h.1 hc
  | cons a u2 =>
    simp only [List.cons_append, List.cons.injEq] at h
    exact ⟨u2, by rw [h.1], h.2⟩

theorem escapeSpec_amps (s : List Char) : AmpsHeadEntities (escapeSpec s) := by
  induction s with
  | nil =>
    intro u v h
    exact absurd h.symm (by simp [escapeSpec])
  | cons x xs ih =>
    intro u v h
    rw [escapeSpec] at h
    by_cases h1 : x = '&'
    · subst h1
      rw [show escChar '&' = '&' :: 'a' :: 'm' :: 'p' :: ';' :: [] from rfl] at h
      cases u with
      | nil =>
        simp only [List.nil_append, List.cons_append, List.cons.injEq, true_and] at h
        exact Or.inl ⟨escapeSpec xs, h.symm⟩
      | cons a u2 =>
        simp only [List.cons_append, List.cons.injEq] at h
        obtain ⟨hb, h⟩ := h
        obtain ⟨u3, _, h⟩ := cons_eq_append_amp h (by decide)
        obtain ⟨u4, _, h⟩ := cons_eq_append_amp h (by decide)
        obtain ⟨u5, _, h⟩ := cons_eq_append_amp h (by decide)
        obtain ⟨u6, _, h⟩ := cons_eq_append_amp h (by decide)
        exact ih u6 v h
    by_cases h2 : x = '>'
    · subst h2
      rw [show escChar '>' = '&' :: 'g' :: 't' :: ';' :: [] from rfl] at h
      cases u with
      | nil =>
        simp only [List.nil_append, List.cons_append, List.cons.injEq, true_and] at h
        exact Or.inr (Or.inl ⟨escapeSpec xs, h.symm⟩)
      | cons a u2 =>
        simp only [List.cons_append, List.cons.injEq] at h
        obtain ⟨hb, h⟩ := h
        obtain ⟨u3, _, h⟩ := cons_eq_append_amp h (by decide)
        obtain ⟨u4, _, h⟩ := cons_eq_append_amp h (by decide)
        obtain ⟨u5, _, h⟩ := cons_eq_append_amp h (by decide)
        exact ih u5 v h
    by_cases h3 : x = '<'
    · subst h3
      rw [show escChar '<' = '&' :: 'l' :: 't' :: ';' :: [] from rfl] at h
      cases u with
      | nil =>
        simp only [List.nil_append, List.cons_append, List.cons.injEq, true_and] at h
        exact Or.inr (Or.inr ⟨escapeSpec xs, h.symm⟩)
      | cons a u2 =>
        simp only [List.cons_append, List.cons.injEq] at h
        obtain ⟨hb, h⟩ := h
        obtain ⟨u3, _, h⟩ := cons_eq_append_amp h (by decide)
        obtain ⟨u4, _, h⟩ := cons_eq_append_amp h (by decide)
        obtain ⟨u5, _, h⟩ := cons_eq_append_amp h (by decide)
        exact ih u5 v h
    · rw [show escChar x = [x] from by simp [escChar, h1, h2, h3]] at h
      rw [List.singleton_append] at h
      obtain ⟨u2, _, h⟩ := cons_eq_append_amp h h1
      exact ih u2 v h

/-! Helper lemmas about the orchestrator. -/

/-- A failure of static_error is a failure of the error page renderer. -/
theorem static_error_error_src (env : RenderEnv) (path err : String)
    (op : Option Unit) (e : String) (h : static_error env path err op = .error e) :
    env.errorHtmlBody 500 "Error rendering page" (diagnosticMessage env err op) = .error e := by
  unfold static_error at h
  cases hb : env.errorHtmlBody 500 "Error rendering page" (diagnosticMessage env err op) with
  | error x =>
    rw [hb] at h
    simp only [Except.error.injEq] at h
    rw [h]
  | ok x =>
    rw [hb] at h
    simp at h

/-! Concrete environments used to exercise the theorems. -/

/-- Environment of a healthy attempt ending in a Rewrite message. -/
def baseEnv : RenderEnv :=
  ⟨.ok (), .ok (), .ok (.rewrite "/target"), fun m => .ok ("traced " ++ m),
    ⟨"exit status 1", some 1⟩, fun _ _ m => .ok ("[" ++ m ++ "]"),
    fun body => "<html>" ++ body ++ "</html>"⟩

/-- Environment whose pool acquisition fails. -/
def poolFailEnv : RenderEnv :=
  ⟨.error "pool exhausted", .ok (), .ok (.rewrite "/target"), fun m => .ok ("traced " ++ m),
    ⟨"exit status 1", some 1⟩, fun _ _ m => .ok ("[" ++ m ++ "]"),
    fun body => "<html>" ++ body ++ "</html>"⟩

/-- Environment whose pool acquisition fails and whose fallback error
page renderer also fails. -/
def diagFailEnv : RenderEnv :=
  ⟨.error "pool exhausted", .ok (), .ok (.rewrite "/target"), fun m => .ok ("traced " ++ m),
    ⟨"exit status 1", some 1⟩, fun _ _ _ => .error "template fault",
    fun body => body⟩

/-- Environment of an attempt ending in a Response message. -/
def responseEnv : RenderEnv :=
  ⟨.ok (), .ok (), .ok (.response 200 [("content-type", "text/html")] "<h1>hi</h1>"),
    fun m => .ok ("traced " ++ m), ⟨"exit status 0", some 0⟩,
    fun _ _ m => .ok ("[" ++ m ++ "]"), fun body => "<html>" ++ body ++ "</html>"⟩

/-- Environment of an attempt in which the worker reports an Error
message. -/
def workerErrEnv : RenderEnv :=
  ⟨.ok (), .ok (), .ok (.error "boom"), fun m => .ok ("traced " ++ m),
    ⟨"exit status 1", some 1⟩, fun _ _ m => .ok ("[" ++ m ++ "]"),
    fun body => "<html>" ++ body ++ "</html>"⟩

/-! Claim theorems. -/

/-- C1: whenever the attempt fails through pool acquisition, through the
exchange (a communication failure or a worker-reported Error), and the
fallback error page renders, render_static recovers: it returns a
`StaticResult.content` with HTTP status 500 and an empty header list
(never an outward failure), so its result is one of the two
StaticResult variants. -/
theorem render_static_recovers_failures (env : RenderEnv) (path : String)
    (hE : ∀ m, ∃ b, env.errorHtmlBody 500 "Error rendering page" m = .ok b)
    (hfail : (∃ e, env.poolOperation = .error e) ∨
      (env.poolOperation = .ok () ∧ ∃ e, run_static_operation env = .error e)) :
    ∃ c issue, render_static env path = .ok (.content c 500 [], [issue]) := by
  rcases hfail with ⟨e, he⟩ | ⟨hp, e, he⟩
  · obtain ⟨b, hb⟩ := hE (diagnosticMessage env e none)
    exact ⟨env.withBodyContent (nextDataScript ++ b), ⟨path, e, none⟩,
      by simp [render_static, static_error, he, hb]⟩
  · obtain ⟨b, hb⟩ := hE (diagnosticMessage env e (some ()))
    exact ⟨env.withBodyContent (nextDataScript ++ b), ⟨path, e, env.waitOrKill.code⟩,
      by simp [render_static, static_error, hp, he, hb]⟩

/-- Witness for C1: a concrete pool-acquisition failure is recovered into
a 500 Content result. -/
theorem render_static_recovers_failures_witness :
    poolFailEnv.poolOperation = .error "pool exhausted" ∧
    ∃ c issue, render_static poolFailEnv "/page" = .ok (.content c 500 [], [issue]) :=
  ⟨rfl, render_static_recovers_failures poolFailEnv "/page"
    (fun m => ⟨"[" ++ m ++ "]", rfl⟩) (Or.inl ⟨"pool exhausted", rfl⟩)⟩

/-- C2: when the worker answers with a Response message, render_static
returns a Content result whose status code, header list and body bytes
are exactly those received. -/
theorem render_static_response_passthrough (env : RenderEnv) (path : String)
    (sc : Nat) (hs : List (String × String)) (body : String)
    (hp : env.poolOperation = .ok ())
    (hsend : env.sendHeaders = .ok ())
    (hr : env.recv = .ok (.response sc hs body)) :
    render_static env path = .ok (.content body sc hs, []) := by
  simp [render_static, run_static_operation, addContext, hp, hsend, hr]

/-- Witness for C2 at a concrete Response exchange. -/
theorem render_static_response_passthrough_witness :
    responseEnv.recv = .ok (.response 200 [("content-type", "text/html")] "<h1>hi</h1>") ∧
    render_static responseEnv "/page" =
      .ok (.content "<h1>hi</h1>" 200 [("content-type", "text/html")], []) :=
  ⟨rfl, render_static_response_passthrough responseEnv "/page"
    200 [("content-type", "text/html")] "<h1>hi</h1>" rfl rfl rfl⟩

/-- C3: the only failure render_static can propagate is a failure of the
fallback error page renderer (the template-rendering fault); the
wait-or-kill resolution of a present worker handle is modelled from the
spec as always completing and so never contributes a failure. -/
theorem render_static_error_only_template (env : RenderEnv) (path e : String)
    (h : render_static env path = .error e) :
    ∃ m, env.errorHtmlBody 500 "Error rendering page" m = .error e := by
  cases hp : env.poolOperation with
  | error err =>
    cases hs : static_error env path err none with
    | error e2 =>
      simp only [render_static, hp, hs, Except.error.injEq] at h
      exact ⟨_, static_error_error_src env path err none e (h ▸ hs)⟩
    | ok pr =>
      obtain ⟨c, i⟩ := pr
      simp [render_static, hp, hs] at h
  | ok u =>
    cases hr : run_static_operation env with
    | ok r =>
      simp [render_static, hp, hr] at h
    | error err =>
      cases hs : static_error env path err (some ()) with
      | error e2 =>
        simp only [render_static, hp, hr, hs, Except.error.injEq] at h
        exact ⟨_, static_error_error_src env path err (some ()) e (h ▸ hs)⟩
      | ok pr =>
        obtain ⟨c, i⟩ := pr
        simp [render_static, hp, hr, hs] at h

/-- Witness for C3: a concrete template fault propagating out of
render_static indeed stems from the error page renderer. -/
theorem render_static_error_only_template_witness :
    render_static diagFailEnv "/page" = .error "template fault" ∧
    ∃ m, diagFailEnv.errorHtmlBody 500 "Error rendering page" m = .error "template fault" :=
  ⟨rfl, render_static_error_only_template diagFailEnv "/page" "template fault" rfl⟩

/-- C4: the escaping pipeline (ampersand replaced first, then the angle
brackets) coincides with the single-pass per-character map — so entities
introduced by the later substitutions are never re-escaped and the
result is order-independent — and its output contains no raw `<` or `>`
and every `&` it contains begins one of the produced entities. -/
theorem escapeHtml_entities_only (s : String) :
    (escapeHtml s).data = escapeSpec s.data ∧
    '<' ∉ (escapeHtml s).data ∧
    '>' ∉ (escapeHtml s).data ∧
    AmpsHeadEntities (escapeHtml s).data := by
  have hd : (escapeHtml s).data = escapeSpec s.data := by
    simp [escapeHtml, escapeChars_eq_spec]
  refine ⟨hd, ?_, ?_, ?_⟩
  · rw [hd]; exact lt_not_in_escapeSpec s.data
  · rw [hd]; exact gt_not_in_escapeSpec s.data
  · rw [hd]; exact escapeSpec_amps s.data

/-- C5: when pool acquisition fails, the diagnostic path runs with no
worker handle: the error page renderer receives exactly the escaped
error text (no process-status line is appended), the result is the 500
Content built from the placeholder block and the rendered error body,
and exactly one Issue is emitted whose exit-code field is `none`.  If
the renderer embeds its message and the fallback template splices its
body, the content contains the escaped error text. -/
theorem render_static_pool_failure_diagnostic (env : RenderEnv) (path e b : String)
    (hp : env.poolOperation = .error e)
    (hb : env.errorHtmlBody 500 "Error rendering page" (escapeHtml e) = .ok b)
    (hbc : ∃ u v, b.data = u ++ (escapeHtml e).data ++ v)
    (hwb : ∀ s, ∃ u v, (env.withBodyContent s).data = u ++ s.data ++ v) :
    render_static env path =
      .ok (.content (env.withBodyContent (nextDataScript ++ b)) 500 [], [⟨path, e, none⟩]) ∧
    ∃ u v, (env.withBodyContent (nextDataScript ++ b)).data =
      u ++ (escapeHtml e).data ++ v := by
  constructor
  · simp [render_static, static_error, diagnosticMessage, hp, hb]
  · obtain ⟨u1, v1, h1⟩ := hwb (nextDataScript ++ b)
    obtain ⟨u2, v2, h2⟩ := hbc
    refine ⟨u1 ++ nextDataScript.data ++ u2, v2 ++ v1, ?_⟩
    rw [h1, String.data_append, h2]
    simp [List.append_assoc]

/-- Witness for C5 on a concrete pool-acquisition failure. -/
theorem render_static_pool_failure_diagnostic_witness :
    poolFailEnv.poolOperation = .error "pool exhausted" ∧
    render_static poolFailEnv "/page" =
      .ok (.content
        (poolFailEnv.withBodyContent
          (nextDataScript ++ ("[" ++ escapeHtml "pool exhausted" ++ "]"))) 500 [],
        [⟨"/page", "pool exhausted", none⟩]) :=
  ⟨rfl,
    (render_static_pool_failure_diagnostic poolFailEnv "/page" "pool exhausted"
      ("[" ++ escapeHtml "pool exhausted" ++ "]") rfl rfl
      ⟨"[".data, "]".data, by simp [String.data_append]⟩
      (fun s => ⟨"<html>".data, "</html>".data, by
        simp [poolFailEnv, String.data_append]⟩)).1⟩

/-- C6: on a failure path the diagnostic body is the inert placeholder
data block followed by the error page rendered with fixed status 500,
fixed title "Error rendering page" and the escaped (status-annotated)
message, and the emitted Issue carries the raw non-escaped error message
together with the optional numeric exit code. -/
theorem static_error_diagnostic_shape (env : RenderEnv) (path err : String)
    (op : Option Unit) (b : String)
    (hb : env.errorHtmlBody 500 "Error rendering page" (diagnosticMessage env err op) = .ok b) :
    static_error env path err op =
      .ok (env.withBodyContent (nextDataScript ++ b),
        ⟨path, err, (op.map fun _ => env.waitOrKill).bind OperationStatus.code⟩) := by
  simp [static_error, hb]

/-- Witness for C6 at a concrete failure with a worker handle present. -/
theorem static_error_diagnostic_shape_witness :
    baseEnv.errorHtmlBody 500 "Error rendering page"
      (diagnosticMessage baseEnv "boom" (some ())) =
      .ok ("[" ++ diagnosticMessage baseEnv "boom" (some ()) ++ "]") ∧
    static_error baseEnv "/page" "boom" (some ()) =
      .ok (baseEnv.withBodyContent
          (nextDataScript ++ ("[" ++ diagnosticMessage baseEnv "boom" (some ()) ++ "]")),
        ⟨"/page", "boom", some 1⟩) :=
  ⟨rfl, static_error_diagnostic_shape baseEnv "/page" "boom" (some ())
    ("[" ++ diagnosticMessage baseEnv "boom" (some ()) ++ "]") rfl⟩

/-- C7: when the worker reports an Error message, the text is first
passed through the stack-trace re-mapping collaborator; the diagnostic
path then runs on the re-mapped text: the error page renders the
escaped re-mapped message and the Issue carries the re-mapped message
and the worker's exit code. -/
theorem render_static_traces_worker_error (env : RenderEnv) (path msg traced b : String)
    (hp : env.poolOperation = .ok ())
    (hsend : env.sendHeaders = .ok ())
    (hr : env.recv = .ok (.error msg))
    (ht : env.traceStack msg = .ok traced)
    (hb : env.errorHtmlBody 500 "Error rendering page"
      (diagnosticMessage env traced (some ())) = .ok b) :
    render_static env path =
      .ok (.content (env.withBodyContent (nextDataScript ++ b)) 500 [],
        [⟨path, traced, env.waitOrKill.code⟩]) := by
  simp [render_static, run_static_operation, static_error, addContext, hp, hsend, hr, ht, hb]

/-- Witness for C7 at a concrete worker-reported Error. -/
theorem render_static_traces_worker_error_witness :
    workerErrEnv.recv = .ok (.error "boom") ∧
    workerErrEnv.traceStack "boom" = .ok "traced boom" ∧
    render_static workerErrEnv "/page" =
      .ok (.content (workerErrEnv.withBodyContent
          (nextDataScript ++
            ("[" ++ diagnosticMessage workerErrEnv "traced boom" (some ()) ++ "]"))) 500 [],
        [⟨"/page", "traced boom", some 1⟩]) :=
  ⟨rfl, rfl, render_static_traces_worker_error workerErrEnv "/page" "boom" "traced boom"
    ("[" ++ diagnosticMessage workerErrEnv "traced boom" (some ()) ++ "]")
    rfl rfl rfl rfl rfl⟩

/-- C8: when the worker answers with a Rewrite message, render_static
returns the Rewrite result built from exactly that path, and no Issue is
emitted (and no diagnostic body is built). -/
theorem render_static_rewrite_passthrough (env : RenderEnv) (path p : String)
    (hp : env.poolOperation = .ok ())
    (hsend : env.sendHeaders = .ok ())
    (hr : env.recv = .ok (.rewrite p)) :
    render_static env path = .ok (.rewrite p, []) := by
  simp [render_static, run_static_operation, addContext, hp, hsend, hr]

/-- Witness for C8 at a concrete Rewrite exchange. -/
theorem render_static_rewrite_passthrough_witness :
    baseEnv.recv = .ok (.rewrite "/target") ∧
    render_static baseEnv "/page" = .ok (.rewrite "/target", []) :=
  ⟨rfl, render_static_rewrite_passthrough baseEnv "/page" "/target" rfl rfl rfl⟩

/-- C9 counterexample: the generated chunk-item code does not embed the
value through the JS stringifier — the value is embedded verbatim — so
the generated code differs from the claim's both-key-and-value
stringified form already on the one-entry mapping ("A", "1"). -/
theorem processEnv_value_not_stringified :
    processEnvChunkItemContent stringifyJsSimple [("A", "1")] ≠
      processEnvSpecContent stringifyJsSimple [("A", "1")] := by
  decide

/-- C9 amended: the generated chunk-item code is the re-spreading header
(preserving unspecified entries) followed by exactly one assignment per
key/value pair in mapping order, where the key is embedded via the
JS-literal-safe stringifier and the value is embedded verbatim (it is
assumed to be pre-stringified upstream). -/
theorem processEnv_content_structure (sj : String → String)
    (env : List (String × String)) :
    processEnvChunkItemContent sj env =
      processEnvHeader ++ concatAll (env.map fun p => envAssignment sj p.1 p.2) := by
  suffices h : ∀ acc : String,
      env.foldl (fun code p => code ++ envAssignment sj p.1 p.2) acc =
        acc ++ concatAll (env.map fun p => envAssignment sj p.1 p.2) from
    h processEnvHeader
  induction env with
  | nil => intro acc; simp [concatAll]
  | cons p l ih =>
    intro acc
    simp only [List.foldl_cons, List.map_cons, concatAll, ih, String.append_assoc]

/-- C10 counterexample: the asset's own content and references
operations do not succeed — both abort as unimplemented. -/
theorem processEnv_asset_ops_unimplemented :
    (ProcessEnvAsset.content ⟨"/", []⟩).isOk = false ∧
    (ProcessEnvAsset.references ⟨"/", []⟩).isOk = false := by
  decide

/-- C10 amended: the asset's own content and references operations abort
as unimplemented (they expose no content and no references), while its
chunk item reports an empty reference list. -/
theorem processEnv_asset_ops (a : ProcessEnvAsset) :
    ProcessEnvAsset.content a = .error "not implemented" ∧
    ProcessEnvAsset.references a = .error "not implemented" ∧
    processEnvChunkItemReferences = ([] : List String) :=
  ⟨rfl, rfl, rfl⟩

end Turbo
